import Mathlib

/-!
Verification of the DatingApp repository ("mutual interest" matching app).

The repository contains three variants of the same Express/Mongoose backend:
* `src/crush-backend/server.js` (the main backend),
* `src/unnamed/part_000` (variant with inline User schema and 401 login errors),
* `src/unnamed/part_001` (variant with input validation and a guarded matches loop).

The stores are embedded as lists kept in insertion order: `Model.find` with a
filter is `List.filter`, `Model.findOne` is `List.find?` (MongoDB natural order;
no sort is ever requested by the code).  One Mongoose behavior matters for the
matches endpoint of the main backend: a filter property whose value is
`undefined` is stripped from the query before it runs (Mongoose docs, "Queries":
a query filter property that is undefined is deleted, so the query matches as if
the property were absent).  `crushFindOne` therefore takes an `Option Nat` owner
filter, `none` meaning the `userId` key was `undefined` and got stripped.

External collaborators (bcrypt, JWT) are out of scope per the spec; the hash and
compare primitives are passed in as function parameters.
-/

namespace DatingApp

/-- A registered user: MongoDB document of the `User` model.  `uid` stands for
the ObjectId `_id`; `passwordHash` is the bcrypt-hashed password stored by the
pre-save hook. -/
structure User where
  uid : Nat
  username : String
  passwordHash : String
deriving Repr, DecidableEq

/-- A crush document (`crushSchema`, src/crush-backend/server.js lines 20-24):
`owner` is the `userId` field (ObjectId of the user who recorded it), `name` is
the free-text target name. -/
structure Crush where
  owner : Nat
  name : String
deriving Repr, DecidableEq

/-- The two MongoDB collections, in insertion order. -/
structure AppState where
  users : List User
  crushes : List Crush
deriving Repr, DecidableEq

/-- `User.findOne({ username })`: first user with that username, in natural
(insertion) order. -/
def userFindOneByUsername (s : AppState) (username : String) : Option User :=
  s.users.find? (fun u => u.username = username)

/-- `User.findById(id)`: the user with that `_id`, if any. -/
def userFindById (s : AppState) (uid : Nat) : Option User :=
  s.users.find? (fun u => u.uid = uid)

/-- `Crush.find({ userId })`: all crushes recorded by `uid`, in insertion
order. -/
def crushFind (s : AppState) (uid : Nat) : List Crush :=
  s.crushes.filter (fun c => c.owner = uid)

/-- `Crush.findOne({ userId: owner, name })`.  `owner = none` models a filter
whose `userId` value was `undefined`: Mongoose strips the key, so the query
constrains `name` only. -/
def crushFindOne (s : AppState) (owner : Option Nat) (name : String) : Option Crush :=
  s.crushes.find? (fun c =>
    (match owner with
     | some i => decide (c.owner = i)
     | none => true) && decide (c.name = name))

/-- Whitespace for the purposes of JS `String.prototype.trim` (space, tab,
line break, carriage return cover every input the claims exercise). -/
def isJsWhitespace (c : Char) : Bool :=
  c = ' ' || c = '\t' || c = '\n' || c = '\r'

/-- JS `String.prototype.trim`: strips leading and trailing whitespace.
Defined over the character list so that it evaluates inside the kernel. -/
def jsTrim (str : String) : String :=
  ⟨((str.data.dropWhile isJsWhitespace).reverse.dropWhile isJsWhitespace).reverse⟩

/-- Outcome of a register request: the HTTP status, the response message, and
the store state after the request. -/
structure RegResult where
  status : Nat
  message : String
  state : AppState
deriving Repr, DecidableEq

/-- POST /api/register of the main backend (src/crush-backend/server.js lines
27-49).  Request body fields are `Option String` (`none` = field absent from the
JSON body).  `username.trim()` on an absent field throws a TypeError, caught by
the handler as a 500.  The imported `models/User.js` is not under src.
Modelled from the spec: the User model schema requires both fields non-empty
(§3 "username: non-empty string"; Mongoose `required` rejects empty strings,
and validation runs before the pre-save hashing hook), so `user.save()` on an
empty field rejects with a ValidationError, caught as a 500; the schema is the
same as the inline one in src/unnamed/part_000 lines 60-76.  `hash` is the
bcrypt primitive (external collaborator), `newId` the fresh ObjectId. -/
def register (hash : String → String) (s : AppState) (newId : Nat)
    (username password : Option String) : RegResult :=
  match username, password with
  | some u, some p =>
    let tu := jsTrim u
    let tp := jsTrim p
    match userFindOneByUsername s tu with
    | some _ => ⟨400, "User already exists", s⟩
    | none =>
      if tu = "" || tp = "" then
        ⟨500, "ValidationError", s⟩
      else
        ⟨200, "User registered successfully",
          { s with users := s.users ++ [⟨newId, tu, hash tp⟩] }⟩
  | _, _ => ⟨500, "TypeError", s⟩

/-- POST /api/register of the part_001 variant (src/unnamed/part_001 lines
57-82): same as the main backend but with an explicit emptiness check before
the existence lookup, answered with a 400. -/
def registerV1 (hash : String → String) (s : AppState) (newId : Nat)
    (username password : Option String) : RegResult :=
  match username, password with
  | some u, some p =>
    let tu := jsTrim u
    let tp := jsTrim p
    if tu = "" || tp = "" then
      ⟨400, "Username and password are required", s⟩
    else
      match userFindOneByUsername s tu with
      | some _ => ⟨400, "User already exists", s⟩
      | none =>
        ⟨200, "User registered successfully",
          { s with users := s.users ++ [⟨newId, tu, hash tp⟩] }⟩
  | _, _ => ⟨500, "TypeError", s⟩

/-- Outcome of a login request: a token for the user (token issuance always
succeeds, abstracted to the signed-in `uid`) or an HTTP error with its
message. -/
inductive LoginResult where
  | ok (uid : Nat)
  | err (status : Nat) (message : String)
deriving Repr, DecidableEq

/-- POST /api/login of the main backend (src/crush-backend/server.js lines
52-71).  `cmp` is `bcrypt.compare` (external collaborator). -/
def login (cmp : String → String → Bool) (s : AppState)
    (username password : String) : LoginResult :=
  match userFindOneByUsername s username with
  | none => .err 400 "Invalid username"
  | some user =>
    if cmp password user.passwordHash then .ok user.uid
    else .err 400 "Invalid password"

/-- POST /api/login of the part_000 variant (src/unnamed/part_000 lines
132-147): both failure cases answer 401 "Invalid credentials". -/
def loginV0 (cmp : String → String → Bool) (s : AppState)
    (username password : String) : LoginResult :=
  match userFindOneByUsername s username with
  | none => .err 401 "Invalid credentials"
  | some user =>
    if cmp password user.passwordHash then .ok user.uid
    else .err 401 "Invalid credentials"

/-- POST /api/login of the part_001 variant (src/unnamed/part_001 lines
85-104): both failure cases answer 400 "Invalid username or password". -/
def loginV1 (cmp : String → String → Bool) (s : AppState)
    (username password : String) : LoginResult :=
  match userFindOneByUsername s username with
  | none => .err 400 "Invalid username or password"
  | some user =>
    if cmp password user.passwordHash then .ok user.uid
    else .err 400 "Invalid username or password"

/-- POST /api/crush of the main backend (src/crush-backend/server.js lines
74-79): no validation, unconditionally saves the new crush and answers it. -/
def addCrush (s : AppState) (owner : Nat) (name : String) : AppState :=
  { s with crushes := s.crushes ++ [⟨owner, name⟩] }

/-- GET /api/crush/:userId (src/crush-backend/server.js lines 82-85): returns
`Crush.find({ userId })`. -/
def listByOwner (s : AppState) (uid : Nat) : List Crush :=
  crushFind s uid

/-- Outcome of GET /api/matches/:userId: `200 {matches}` or the catch-all 500
(the only error the handler can produce, from a thrown TypeError). -/
inductive MatchesResult where
  | ok (names : List String)
  | internal
deriving Repr, DecidableEq

/-- The reverse lookup of the main backend's matches loop
(src/crush-backend/server.js line 103): `Crush.findOne({ userId:
User.findOne({username: crush.name}).then(u => u?._id), name: myUsername })`.
When no user bears `targetName`, the optional chaining yields `undefined` and
Mongoose strips the `userId` key, so the query matches on `name` alone. -/
def reverseLookup (s : AppState) (targetName myUsername : String) : Option Crush :=
  crushFindOne s (Option.map User.uid (userFindOneByUsername s targetName)) myUsername

/-- The body of the matches loop (src/crush-backend/server.js lines 102-107).
Each iteration re-evaluates `(await User.findById(userId)).username`; when that
user is absent the member access throws (`none`, surfaced as a 500). -/
def matchesLoop (s : AppState) (userId : Nat) : List Crush → Option (List String)
  | [] => some []
  | c :: rest =>
    match userFindById s userId with
    | none => none
    | some me =>
      match matchesLoop s userId rest with
      | none => none
      | some tail =>
        some (if (reverseLookup s c.name me.username).isSome
              then c.name :: tail else tail)

/-- GET /api/matches/:userId of the main backend (src/crush-backend/server.js
lines 93-113); identical code in src/unnamed/part_000 lines 181-201. -/
def resolveMatches (s : AppState) (userId : Nat) : MatchesResult :=
  match matchesLoop s userId (crushFind s userId) with
  | some l => .ok l
  | none => .internal

/-- The matches loop of the part_001 variant (src/unnamed/part_001 lines
141-152): the target user is looked up first and the iteration is skipped when
absent, so the reverse query always carries a concrete `userId`. -/
def matchesLoopV1 (s : AppState) (userId : Nat) : List Crush → Option (List String)
  | [] => some []
  | c :: rest =>
    match userFindOneByUsername s c.name with
    | none => matchesLoopV1 s userId rest
    | some target =>
      match userFindById s userId with
      | none => none
      | some me =>
        match matchesLoopV1 s userId rest with
        | none => none
        | some tail =>
          some (if (crushFindOne s (some target.uid) me.username).isSome
                then c.name :: tail else tail)

/-- GET /api/matches/:userId of the part_001 variant (src/unnamed/part_001
lines 135-159). -/
def resolveMatchesV1 (s : AppState) (userId : Nat) : MatchesResult :=
  match matchesLoopV1 s userId (crushFind s userId) with
  | some l => .ok l
  | none => .internal

/-- The matches handler paired with the store state after the request.  The
handler issues only read queries (`find`, `findOne`, `findById`) and performs
no write, so the state after the request is the state before it. -/
def resolveMatchesSt (s : AppState) (userId : Nat) : MatchesResult × AppState :=
  (resolveMatches s userId, s)

/-! ### Proof infrastructure -/

/-- The names accumulated by the main matches loop when the owner lookup
`User.findById(userId)` succeeds with `me`: a pure characterization of
`matchesLoop`, used only in proofs. -/
def matchNames (s : AppState) (me : User) : List Crush → List String
  | [] => []
  | c :: rest =>
    if (reverseLookup s c.name me.username).isSome
    then c.name :: matchNames s me rest
    else matchNames s me rest

theorem matchesLoop_eq_matchNames (s : AppState) (uid : Nat) (me : User)
    (h : userFindById s uid = some me) :
    ∀ cs : List Crush, matchesLoop s uid cs = some (matchNames s me cs) := by
  intro cs
  induction cs with
  | nil => rfl
  | cons c rest ih =>
    simp only [matchesLoop, h, ih, matchNames]

theorem resolveMatches_eq_matchNames (s : AppState) (uid : Nat) (me : User)
    (h : userFindById s uid = some me) :
    resolveMatches s uid = .ok (matchNames s me (crushFind s uid)) := by
  simp [resolveMatches, matchesLoop_eq_matchNames s uid me h]

theorem mem_matchNames (s : AppState) (me : User) (c : Crush)
    (hrec : (reverseLookup s c.name me.username).isSome = true) :
    ∀ cs : List Crush, c ∈ cs → c.name ∈ matchNames s me cs := by
  intro cs
  induction cs with
  | nil => intro h; cases h
  | cons d rest ih =>
    intro h
    simp only [matchNames]
    rcases List.mem_cons.mp h with h | h
    · subst h
      simp [hrec]
    · by_cases hd : (reverseLookup s d.name me.username).isSome <;>
        simp [hd, ih h]

theorem count_matchNames (s : AppState) (me : User) (n : String)
    (hrec : (reverseLookup s n me.username).isSome = true) :
    ∀ cs : List Crush,
      (matchNames s me cs).count n = cs.countP (fun c => c.name == n) := by
  intro cs
  induction cs with
  | nil => rfl
  | cons c rest ih =>
    simp only [matchNames, List.countP_cons]
    by_cases hc : c.name = n
    · rw [hc, hrec]
      simp [List.count_cons, ih]
    · by_cases hr : (reverseLookup s c.name me.username).isSome <;>
        simp [hr, List.count_cons, hc, ih]

theorem matchesLoop_sublist (s : AppState) (uid : Nat) :
    ∀ (cs : List Crush) (l : List String), matchesLoop s uid cs = some l →
      l.Sublist (cs.map Crush.name) := by
  intro cs
  induction cs with
  | nil =>
    intro l h
    simp only [matchesLoop, Option.some.injEq] at h
    subst h
    simp
  | cons c rest ih =>
    intro l h
    simp only [matchesLoop] at h
    cases hf : userFindById s uid with
    | none => rw [hf] at h; cases h
    | some me =>
      rw [hf] at h
      cases hm : matchesLoop s uid rest with
      | none => rw [hm] at h; cases h
      | some tail =>
        rw [hm] at h
        simp only [Option.some.injEq] at h
        subst h
        by_cases hr : (reverseLookup s c.name me.username).isSome
        · simpa [hr] using (ih tail hm).cons₂ c.name
        · simpa [hr] using (ih tail hm).cons c.name

/-- When B's username resolves to B and both reciprocal crush edges are
present, the main matches endpoint answers for A with a list containing B's
username. -/
theorem matches_contains_of_reciprocal (s : AppState) (A B : User)
    (hA : userFindById s A.uid = some A)
    (hBu : userFindOneByUsername s B.username = some B)
    (hab : (⟨A.uid, B.username⟩ : Crush) ∈ s.crushes)
    (hba : (⟨B.uid, A.username⟩ : Crush) ∈ s.crushes) :
    ∃ la, resolveMatches s A.uid = .ok la ∧ B.username ∈ la := by
  refine ⟨matchNames s A (crushFind s A.uid),
    resolveMatches_eq_matchNames s A.uid A hA, ?_⟩
  have hmem : (⟨A.uid, B.username⟩ : Crush) ∈ crushFind s A.uid := by
    simp [crushFind, List.mem_filter, hab]
  have hrec : (reverseLookup s B.username A.username).isSome = true := by
    simp only [reverseLookup, hBu, Option.map_some]
    rw [crushFindOne, List.find?_isSome]
    exact ⟨⟨B.uid, A.username⟩, hba, by simp⟩
  exact mem_matchNames s A ⟨A.uid, B.username⟩ hrec (crushFind s A.uid) hmem

/-! ### Claims -/

/-- Claim C1 (refuted on the main backend): the spec says a target name that
matches no registered username never appears in the matches result, but in
src/crush-backend/server.js the reverse lookup for such a name carries
`userId: undefined`, Mongoose strips the key, and the query matches any crush
named after the requesting user — here the state where alice crushes on the
unregistered name "zzz" and on herself makes "zzz" be reported as a match. -/
theorem c1_unregistered_name_reported :
    userFindOneByUsername
      (⟨[⟨0, "alice", "h"⟩], [⟨0, "zzz"⟩, ⟨0, "alice"⟩]⟩ : AppState) "zzz" = none ∧
    resolveMatches
      (⟨[⟨0, "alice", "h"⟩], [⟨0, "zzz"⟩, ⟨0, "alice"⟩]⟩ : AppState) 0
      = .ok ["zzz", "alice"] := by decide

/-- Claim C2: if registered users A and B have each recorded an interest in the
other's username (and their ids and usernames resolve to them in the stores),
the matches result of each contains the other's username. -/
theorem c2_matching_symmetric (s : AppState) (A B : User)
    (hA : userFindById s A.uid = some A)
    (hB : userFindById s B.uid = some B)
    (hAu : userFindOneByUsername s A.username = some A)
    (hBu : userFindOneByUsername s B.username = some B)
    (hab : (⟨A.uid, B.username⟩ : Crush) ∈ s.crushes)
    (hba : (⟨B.uid, A.username⟩ : Crush) ∈ s.crushes) :
    ∃ la lb, resolveMatches s A.uid = .ok la ∧ B.username ∈ la ∧
      resolveMatches s B.uid = .ok lb ∧ A.username ∈ lb := by
  obtain ⟨la, h1, h2⟩ := matches_contains_of_reciprocal s A B hA hBu hab hba
  obtain ⟨lb, h3, h4⟩ := matches_contains_of_reciprocal s B A hB hAu hba hab
  exact ⟨la, lb, h1, h2, h3, h4⟩

theorem c2_matching_symmetric_witness :
    ∃ la lb,
      resolveMatches
        (⟨[⟨0, "alice", "h1"⟩, ⟨1, "bob", "h2"⟩],
          [⟨0, "bob"⟩, ⟨1, "alice"⟩]⟩ : AppState) 0 = .ok la ∧ "bob" ∈ la ∧
      resolveMatches
        (⟨[⟨0, "alice", "h1"⟩, ⟨1, "bob", "h2"⟩],
          [⟨0, "bob"⟩, ⟨1, "alice"⟩]⟩ : AppState) 1 = .ok lb ∧ "alice" ∈ lb :=
  c2_matching_symmetric
    (⟨[⟨0, "alice", "h1"⟩, ⟨1, "bob", "h2"⟩], [⟨0, "bob"⟩, ⟨1, "alice"⟩]⟩ : AppState)
    ⟨0, "alice", "h1"⟩ ⟨1, "bob", "h2"⟩
    (by decide) (by decide) (by decide) (by decide) (by decide) (by decide)

/-- Claim C3 counterexample: for userId 7, which resolves to no user, the main
matches endpoint returns a successful empty result (HTTP 200), not a NotFound
error. -/
theorem c3_counterexample_unknown_user_ok :
    userFindById (⟨[], []⟩ : AppState) 7 = none ∧
    resolveMatches (⟨[], []⟩ : AppState) 7 = .ok [] := by decide

/-- Claim C3 as amended: when userId resolves to no user, the main matches
endpoint returns 200 with an empty list if that id owns no crushes, and
otherwise a 500 Internal error (the TypeError thrown on reading `.username` of
a null `findById` result); it never produces NotFound. -/
theorem c3_unknown_user_behavior (s : AppState) (uid : Nat)
    (h : userFindById s uid = none) :
    resolveMatches s uid
      = if crushFind s uid = [] then .ok [] else .internal := by
  cases hcs : crushFind s uid with
  | nil => simp [resolveMatches, hcs, matchesLoop]
  | cons c rest => simp [resolveMatches, hcs, matchesLoop, h]

theorem c3_unknown_user_behavior_witness :
    resolveMatches (⟨[], [⟨7, "x"⟩]⟩ : AppState) 7
      = if crushFind (⟨[], [⟨7, "x"⟩]⟩ : AppState) 7 = [] then .ok [] else .internal :=
  c3_unknown_user_behavior (⟨[], [⟨7, "x"⟩]⟩ : AppState) 7 (by decide)

/-- Claim C4 counterexample: on the main backend, a login with an unknown
username and one with a known username and failing hash comparison produce
different responses ("Invalid username" vs "Invalid password"), so the two runs
are distinguishable. -/
theorem c4_counterexample_login_distinguishable :
    login (fun _ _ => false) (⟨[⟨0, "alice", "h"⟩], []⟩ : AppState) "carol" "pw"
      = .err 400 "Invalid username" ∧
    login (fun _ _ => false) (⟨[⟨0, "alice", "h"⟩], []⟩ : AppState) "alice" "pw"
      = .err 400 "Invalid password" ∧
    login (fun _ _ => false) (⟨[⟨0, "alice", "h"⟩], []⟩ : AppState) "carol" "pw"
      ≠ login (fun _ _ => false) (⟨[⟨0, "alice", "h"⟩], []⟩ : AppState) "alice" "pw" := by
  decide

/-- Claim C4 as amended: the main backend answers both failure cases with
status 400 but with distinct messages, while the part_000 and part_001 login
variants answer the two cases with identical responses. -/
theorem c4_login_error_responses (cmp : String → String → Bool) (s : AppState)
    (u1 p1 u2 p2 : String) (user : User)
    (h1 : userFindOneByUsername s u1 = none)
    (h2 : userFindOneByUsername s u2 = some user)
    (h3 : cmp p2 user.passwordHash = false) :
    login cmp s u1 p1 = .err 400 "Invalid username" ∧
    login cmp s u2 p2 = .err 400 "Invalid password" ∧
    loginV0 cmp s u1 p1 = loginV0 cmp s u2 p2 ∧
    loginV1 cmp s u1 p1 = loginV1 cmp s u2 p2 := by
  simp [login, loginV0, loginV1, h1, h2, h3]

theorem c4_login_error_responses_witness :
    login (fun _ _ => false) (⟨[⟨0, "alice", "h"⟩], []⟩ : AppState) "carol" "pw"
      = .err 400 "Invalid username" ∧
    login (fun _ _ => false) (⟨[⟨0, "alice", "h"⟩], []⟩ : AppState) "alice" "pw"
      = .err 400 "Invalid password" ∧
    loginV0 (fun _ _ => false) (⟨[⟨0, "alice", "h"⟩], []⟩ : AppState) "carol" "pw"
      = loginV0 (fun _ _ => false) (⟨[⟨0, "alice", "h"⟩], []⟩ : AppState) "alice" "pw" ∧
    loginV1 (fun _ _ => false) (⟨[⟨0, "alice", "h"⟩], []⟩ : AppState) "carol" "pw"
      = loginV1 (fun _ _ => false) (⟨[⟨0, "alice", "h"⟩], []⟩ : AppState) "alice" "pw" :=
  c4_login_error_responses (fun _ _ => false)
    (⟨[⟨0, "alice", "h"⟩], []⟩ : AppState) "carol" "pw" "alice" "pw"
    ⟨0, "alice", "h"⟩ (by decide) (by decide) rfl

/-- Claim C5 counterexample: on the main backend, registering with a username
that is empty after trimming yields a 500 (Mongoose validation failure inside
save), not the 400 InvalidInput the claim states. -/
theorem c5_counterexample_empty_register_500 :
    register (fun p => p) (⟨[], []⟩ : AppState) 0 (some "") (some "pw")
      = ⟨500, "ValidationError", ⟨[], []⟩⟩ ∧ (500 : Nat) ≠ 400 := by decide

/-- Claim C5 as amended: with a field empty after trimming (and no existing
user under the trimmed username, which the main backend checks first), the main
backend answers 500 and creates no User, while the part_001 variant answers 400
InvalidInput and creates no User. -/
theorem c5_empty_field_register (hash : String → String) (s : AppState)
    (newId : Nat) (u p : String)
    (hempty : jsTrim u = "" ∨ jsTrim p = "")
    (hfree : userFindOneByUsername s (jsTrim u) = none) :
    register hash s newId (some u) (some p) = ⟨500, "ValidationError", s⟩ ∧
    registerV1 hash s newId (some u) (some p)
      = ⟨400, "Username and password are required", s⟩ := by
  have hb : (jsTrim u = "" || jsTrim p = "") = true := by
    rcases hempty with h | h <;> simp [h]
  constructor
  · simp [register, hfree, hb]
  · simp [registerV1, hb]

theorem c5_empty_field_register_witness :
    register (fun x => x) (⟨[], []⟩ : AppState) 0 (some " ") (some "pw")
      = ⟨500, "ValidationError", ⟨[], []⟩⟩ ∧
    registerV1 (fun x => x) (⟨[], []⟩ : AppState) 0 (some " ") (some "pw")
      = ⟨400, "Username and password are required", ⟨[], []⟩⟩ :=
  c5_empty_field_register (fun x => x) (⟨[], []⟩ : AppState) 0 " " "pw"
    (Or.inl (by decide)) (by decide)

/-- Claim C6: when a user with the requested (trimmed) username already exists,
the main register handler answers 400 Conflict and leaves the store untouched;
and register preserves the invariant that no two users share a username,
whatever the request body. -/
theorem c6_duplicate_username_conflict (hash : String → String) (s : AppState)
    (newId : Nat) (u p : String) (w : User)
    (hw : w ∈ s.users) (hname : w.username = jsTrim u)
    (username password : Option String)
    (hpw : s.users.Pairwise (fun a b => a.username ≠ b.username)) :
    register hash s newId (some u) (some p) = ⟨400, "User already exists", s⟩ ∧
    (register hash s newId username password).state.users.Pairwise
      (fun a b => a.username ≠ b.username) := by
  constructor
  · have hex : ∃ v, userFindOneByUsername s (jsTrim u) = some v := by
      rw [← Option.isSome_iff_exists, userFindOneByUsername, List.find?_isSome]
      exact ⟨w, hw, by simp [hname]⟩
    obtain ⟨v, hv⟩ := hex
    simp [register, hv]
  · cases username with
    | none => simpa [register] using hpw
    | some u2 =>
      cases password with
      | none => simpa [register] using hpw
      | some p2 =>
        cases hfind : userFindOneByUsername s (jsTrim u2) with
        | some v => simpa [register, hfind] using hpw
        | none =>
          by_cases hemp : (jsTrim u2 = "" || jsTrim p2 = "") = true
          · simpa [register, hfind, hemp] using hpw
          · simp only [register, hfind, hemp, Bool.false_eq_true, if_false]
            rw [List.pairwise_append]
            refine ⟨hpw, List.pairwise_singleton _ _, ?_⟩
            intro a ha b hb
            simp only [List.mem_singleton] at hb
            subst hb
            have hnone := List.find?_eq_none.mp hfind a ha
            simpa using hnone

theorem c6_duplicate_username_conflict_witness :
    register (fun x => x)
      (⟨[⟨0, "alice", "h1"⟩], []⟩ : AppState) 1 (some "alice") (some "pw")
      = ⟨400, "User already exists", ⟨[⟨0, "alice", "h1"⟩], []⟩⟩ ∧
    (register (fun x => x)
      (⟨[⟨0, "alice", "h1"⟩], []⟩ : AppState) 1 (some "bob") (some "pw")).state.users.Pairwise
      (fun a b => a.username ≠ b.username) :=
  c6_duplicate_username_conflict (fun x => x)
    (⟨[⟨0, "alice", "h1"⟩], []⟩ : AppState) 1 "alice" "pw"
    ⟨0, "alice", "h1"⟩ (by decide) (by decide)
    (some "bob") (some "pw") (by decide)

/-- Claim C7: recording the same target twice is accepted and both copies are
kept — both appear in the owner's crush list — and when the reciprocity check
for that name succeeds, the matches result repeats the name once per copy (the
count of the name in the result equals the number of the owner's crushes
bearing it; no deduplication). -/
theorem c7_duplicate_interests_preserved (s : AppState) (o uid : Nat)
    (n : String) (me : User)
    (hme : userFindById s uid = some me)
    (hrec : (reverseLookup s n me.username).isSome = true) :
    listByOwner (addCrush (addCrush s o n) o n) o
      = listByOwner s o ++ [⟨o, n⟩, ⟨o, n⟩] ∧
    ∃ l, resolveMatches s uid = .ok l ∧
      l.count n = (listByOwner s uid).countP (fun c => c.name == n) := by
  constructor
  · simp [listByOwner, addCrush, crushFind, List.filter_append]
  · exact ⟨matchNames s me (crushFind s uid),
      resolveMatches_eq_matchNames s uid me hme,
      count_matchNames s me n hrec (crushFind s uid)⟩

theorem c7_duplicate_interests_preserved_witness :
    listByOwner
      (addCrush (addCrush
        (⟨[⟨0, "alice", "h1"⟩, ⟨1, "bob", "h2"⟩],
          [⟨0, "bob"⟩, ⟨0, "bob"⟩, ⟨1, "alice"⟩]⟩ : AppState) 3 "bob") 3 "bob") 3
      = listByOwner
          (⟨[⟨0, "alice", "h1"⟩, ⟨1, "bob", "h2"⟩],
            [⟨0, "bob"⟩, ⟨0, "bob"⟩, ⟨1, "alice"⟩]⟩ : AppState) 3
        ++ [⟨3, "bob"⟩, ⟨3, "bob"⟩] ∧
    ∃ l, resolveMatches
        (⟨[⟨0, "alice", "h1"⟩, ⟨1, "bob", "h2"⟩],
          [⟨0, "bob"⟩, ⟨0, "bob"⟩, ⟨1, "alice"⟩]⟩ : AppState) 0 = .ok l ∧
      l.count "bob"
        = (listByOwner
            (⟨[⟨0, "alice", "h1"⟩, ⟨1, "bob", "h2"⟩],
              [⟨0, "bob"⟩, ⟨0, "bob"⟩, ⟨1, "alice"⟩]⟩ : AppState) 0).countP
            (fun c => c.name == "bob") :=
  c7_duplicate_interests_preserved
    (⟨[⟨0, "alice", "h1"⟩, ⟨1, "bob", "h2"⟩],
      [⟨0, "bob"⟩, ⟨0, "bob"⟩, ⟨1, "alice"⟩]⟩ : AppState) 3 0 "bob"
    ⟨0, "alice", "h1"⟩ (by decide) (by decide)

/-- Claim C8: with a fixed store state the matches handler is idempotent — it
performs no write (the state after a call is the state before it), so a second
call on the resulting state returns the same result. -/
theorem c8_resolveMatches_idempotent (s : AppState) (uid : Nat) :
    (resolveMatchesSt s uid).2 = s ∧
    (resolveMatchesSt ((resolveMatchesSt s uid).2) uid).1
      = (resolveMatchesSt s uid).1 :=
  ⟨rfl, rfl⟩

/-- Claim C9: a register request whose body lacks the username or the password
field makes the main backend throw a TypeError on `.trim()`, answered as a 500
Internal error, and no User is created (the store is unchanged). -/
theorem c9_missing_field_internal_error (hash : String → String) (s : AppState)
    (newId : Nat) (f : Option String) :
    register hash s newId none f = ⟨500, "TypeError", s⟩ ∧
    register hash s newId f none = ⟨500, "TypeError", s⟩ := by
  cases f <;> exact ⟨rfl, rfl⟩

/-- Claim C10: every successful matches result lists names of the requesting
user's own crushes, in crush-list order: the result is a subsequence of the
names in the owner's crush list. -/
theorem c10_matches_subsequence_of_interests (s : AppState) (uid : Nat)
    (l : List String) (h : resolveMatches s uid = .ok l) :
    l.Sublist ((listByOwner s uid).map Crush.name) := by
  have hm : matchesLoop s uid (crushFind s uid) = some l := by
    revert h
    unfold resolveMatches
    cases hm : matchesLoop s uid (crushFind s uid) with
    | none => intro h; cases h
    | some l2 =>
      intro h
      injection h with h
      rw [h]
  exact matchesLoop_sublist s uid (crushFind s uid) l hm

theorem c10_matches_subsequence_of_interests_witness :
    (["alice"] : List String).Sublist
      ((listByOwner
        (⟨[⟨0, "alice", "h1"⟩, ⟨1, "bob", "h2"⟩],
          [⟨0, "carol"⟩, ⟨0, "bob"⟩, ⟨1, "alice"⟩]⟩ : AppState) 1).map Crush.name) :=
  c10_matches_subsequence_of_interests
    (⟨[⟨0, "alice", "h1"⟩, ⟨1, "bob", "h2"⟩],
      [⟨0, "carol"⟩, ⟨0, "bob"⟩, ⟨1, "alice"⟩]⟩ : AppState) 1 ["alice"] (by decide)

end DatingApp
